import Mathlib

/-!
Shallow embedding of the optimization decision engine and monitoring loop of
the `ai-marketing-specialist` Cloudflare worker.

JavaScript objects that flow through the pipeline are modelled as records of
`Option ℚ` fields (a missing property reads as `none`, the JS `undefined`).
JS numbers are modelled as rationals; comparisons against `undefined`/`NaN`
are `false`, mirroring JS semantics.  Durable storage (the D1 tables
`campaigns`, `performance_metrics`, `ai_decisions`, `alerts`) is modelled as
explicit list-valued state; external HTTP calls are oracle functions returning
`Except` (an `Except.error` models a rejected promise / thrown error).
-/

-- Batteries marks the `Rat` arithmetic operations `@[irreducible]`, which
-- blocks `decide` from evaluating concrete rational expressions; restore the
-- default reducibility for this development so concrete runs of the embedded
-- code can be settled by `decide`.
attribute [local semireducible] Rat.mul Rat.add Rat.sub Rat.inv

/-- A dynamically-typed JS value appearing in decision payloads: the
`adjustment` field holds a number for the bid/budget rules and a string for
the pacing rule. -/
inductive JsVal
  | num (q : ℚ)
  | str (s : String)
deriving DecidableEq

/-- Raw counters destructured by `calculateMetrics(data)`
(src/utils/helpers.js). -/
structure RawCounters where
  impressions : ℚ
  clicks : ℚ
  spend : ℚ
  conversions : ℚ
  revenue : ℚ
deriving DecidableEq

/-- A metrics-shaped JS object: every property any consumer in the source
reads (`calculateMetrics` output, `makeOptimizationDecision`,
`checkAndCreateAlerts`, `saveMetrics`).  A property absent from the concrete
object is `none`. -/
structure JsMetrics where
  impressions : Option ℚ := none
  clicks : Option ℚ := none
  spend : Option ℚ := none
  conversions : Option ℚ := none
  revenue : Option ℚ := none
  ctr : Option ℚ := none
  cpc : Option ℚ := none
  cpl : Option ℚ := none
  cpa : Option ℚ := none
  roas : Option ℚ := none
  conversionRate : Option ℚ := none
  dailyBudget : Option ℚ := none
deriving DecidableEq

/-- JS `a > b` where `a` may be `undefined` (comparison with `undefined` is
`false`). -/
def jsGt (a : Option ℚ) (b : ℚ) : Bool :=
  match a with
  | some v => decide (v > b)
  | none => false

/-- JS `a < b` where `a` may be `undefined`. -/
def jsLt (a : Option ℚ) (b : ℚ) : Bool :=
  match a with
  | some v => decide (v < b)
  | none => false

/-- JS `a > b * c` where `a` and `b` may be `undefined` (any `undefined`
operand makes the comparison `false`, via `NaN`). -/
def jsGtMul (a b : Option ℚ) (c : ℚ) : Bool :=
  match a, b with
  | some x, some y => decide (x > y * c)
  | _, _ => false

/-- JS `x || 0`: `undefined` (and falsy `0`) coerce to `0`. -/
def jsOr0 (a : Option ℚ) : ℚ := a.getD 0

/-- JS `Number.prototype.toFixed(2)` for the non-negative values this program
renders. -/
def fixed2 (q : ℚ) : String :=
  let n : ℤ := ⌊q * 100 + 1/2⌋
  let f : ℕ := (n % 100).toNat
  toString (n / 100) ++ "." ++ (if f < 10 then "0" else "") ++ toString f

/-- `calculateMetrics` (src/utils/helpers.js lines 274–285): the object
literal it returns carries exactly the six derived KPIs; no raw counter is
copied into it. -/
def calculateMetrics (data : RawCounters) : JsMetrics :=
  { ctr := some (if data.impressions > 0 then data.clicks / data.impressions * 100 else 0)
    cpc := some (if data.clicks > 0 then data.spend / data.clicks else 0)
    cpl := some (if data.conversions > 0 then data.spend / data.conversions else 0)
    cpa := some (if data.conversions > 0 then data.spend / data.conversions else 0)
    roas := some (if data.spend > 0 then data.revenue / data.spend else 0)
    conversionRate := some (if data.clicks > 0 then data.conversions / data.clicks * 100 else 0) }

/-- Substring test on the underlying character lists (used to state that a
reason string interpolates a rendered KPI value). -/
def listContains (pat : List Char) : List Char → Bool
  | [] => decide (pat = [])
  | c :: cs => pat.isPrefixOf (c :: cs) || listContains pat cs

/-- String containment: `strContainsSub s pat` holds when `pat` occurs
contiguously inside `s`. -/
def strContainsSub (s pat : String) : Bool :=
  listContains pat.toList s.toList

/-- An action descriptor as pushed by `makeOptimizationDecision`
(src/ai-engine/engine.js).  `type` is the JS string tag switched on by the
adapters; fields a given rule does not set are absent (`none`).
`newBudget`/`currentBudget` are read (possibly absent) by the adapters'
`budget_reallocation` branch. -/
structure Decision where
  type : String
  action : String := ""
  reason : String := ""
  adjustment : Option JsVal := none
  suggestion : Option String := none
  newBudget : Option ℚ := none
  currentBudget : Option ℚ := none
deriving DecidableEq

/-- The result object returned by a platform adapter's `executeDecision`:
`{success, message?, newBudget?, status?}`. -/
structure AdapterResult where
  success : Bool
  message : Option String := none
  newBudget : Option ℚ := none
  status : Option String := none
deriving DecidableEq

/-- The rule cascade of `AIEngine.makeOptimizationDecision`
(src/ai-engine/engine.js lines 186–228): four independent threshold rules,
evaluated in this order, each appending one action descriptor.  `currentHour`
models `new Date().getHours()`. -/
def AIEngine.optimizationRules (metrics : JsMetrics) (currentHour : ℕ) : List Decision :=
  (if jsGt metrics.cpl 50 then
    [{ type := "bid_adjustment", action := "decrease_bid",
       reason := "CPL de R$ " ++ fixed2 (jsOr0 metrics.cpl) ++ " está acima do target de R$ 50",
       adjustment := some (.num (-10)) }] else []) ++
  (if jsLt metrics.roas 2 && jsGt metrics.conversions 10 then
    [{ type := "budget_reallocation", action := "reduce_budget",
       reason := "ROAS de " ++ fixed2 (jsOr0 metrics.roas) ++ "x está abaixo do target de 2x",
       adjustment := some (.num (-20)) }] else []) ++
  (if jsLt metrics.ctr 1 && jsGt metrics.impressions 1000 then
    [{ type := "creative_refresh", action := "suggest_new_creatives",
       reason := "CTR de " ++ fixed2 (jsOr0 metrics.ctr) ++ "% está muito baixo",
       suggestion := some "Criar novos criativos com copy mais persuasivo" }] else []) ++
  (if jsGtMul metrics.spend metrics.dailyBudget (8/10) && decide (currentHour < 12) then
    [{ type := "pacing_adjustment", action := "slow_down_delivery",
       reason := "Gastando orçamento muito rápido",
       adjustment := some (.str "Mudar para entrega uniforme") }] else [])

/-- JS `Math.round` for the non-negative budgets this program computes. -/
def jsRound (q : ℚ) : ℤ := ⌊q + 1/2⌋

/-- `decision.newBudget || (decision.currentBudget * (1 + decision.adjustment / 100))`
with JS semantics: a falsy (`0`/absent) `newBudget` falls through; the product
is `NaN` (modelled `none`) unless both `currentBudget` and a numeric
`adjustment` are present. -/
def adapterNewBudget (d : Decision) : Option ℚ :=
  let fallback : Option ℚ :=
    match d.currentBudget, d.adjustment with
    | some cb, some (.num a) => some (cb * (1 + a / 100))
    | _, _ => none
  match d.newBudget with
  | some v => if v = 0 then fallback else some v
  | none => fallback

/-- An HTTP mutation issued by `MetaAdsIntegration.executeDecision`
(src/integrations/meta-ads.js lines 232–269). -/
inductive MetaCall
  | updateBudget (campaignId : String) (dailyBudgetCents : Option ℤ)
  | pauseCampaign (campaignId : String)
deriving DecidableEq

/-- `MetaAdsIntegration.executeDecision` (src/integrations/meta-ads.js lines
232–269).  `net` is the fetch oracle: `Except.error` models a rejected fetch,
whose exception propagates.  `bid_adjustment` performs no call at all (Meta
has no direct bid control); unknown types fall to the `default` branch. -/
def MetaAdsIntegration.executeDecision (net : MetaCall → Except String Unit)
    (campaignId : String) (decision : Decision) : Except String AdapterResult :=
  if decision.type = "bid_adjustment" then
    .ok { success := true, message := some "Bid adjustment não aplicável no Meta Ads" }
  else if decision.type = "budget_reallocation" then
    match net (.updateBudget campaignId ((adapterNewBudget decision).map fun v => jsRound (v * 100))) with
    | .error e => .error e
    | .ok _ => .ok { success := true, newBudget := adapterNewBudget decision }
  else if decision.type = "pause_campaign" then
    match net (.pauseCampaign campaignId) with
    | .error e => .error e
    | .ok _ => .ok { success := true, status := some "PAUSED" }
  else
    .ok { success := false, message := some "Decision type not implemented" }

/-- An HTTP call issued by `GoogleAdsIntegration.executeDecision`
(src/integrations/google-ads.js lines 245–290); the OAuth token refresh runs
before the `switch`, for every decision type. -/
inductive GoogleCall
  | oauthToken
  | pauseCampaign (campaignId : String)
deriving DecidableEq

/-- `GoogleAdsIntegration.executeDecision` (src/integrations/google-ads.js
lines 245–290).  `bid_adjustment` and `budget_reallocation` are stubs that
return success without a mutation call; `pause_campaign` issues the mutate
request; unknown types fall to `default`. -/
def GoogleAdsIntegration.executeDecision (net : GoogleCall → Except String Unit)
    (campaignId : String) (decision : Decision) : Except String AdapterResult :=
  match net .oauthToken with
  | .error e => .error e
  | .ok _ =>
    if decision.type = "bid_adjustment" then
      .ok { success := true, message := some "Bid adjustment applied" }
    else if decision.type = "budget_reallocation" then
      .ok { success := true, newBudget := adapterNewBudget decision }
    else if decision.type = "pause_campaign" then
      match net (.pauseCampaign campaignId) with
      | .error e => .error e
      | .ok _ => .ok { success := true, status := some "PAUSED" }
    else
      .ok { success := false, message := some "Decision type not implemented" }

/-- A row of the `campaigns` table (migrations/0001_initial_schema.sql),
restricted to the columns the monitoring/dispatch path reads. -/
structure Campaign where
  id : String
  platform : String
  campaign_id : String
  name : String
  status : String
  daily_budget : ℚ
deriving DecidableEq

/-- A row of `ai_decisions` as written by `AIEngine.logDecision`
(src/ai-engine/engine.js lines 273–286).  The insert binds no value to the
table's `success` column, so it is always NULL (`none`); `action_taken`
stores the serialized `{decision, result}` pair. -/
structure LedgerRecord where
  campaign_id : String
  decision_type : String
  reason : String
  action_decision : Decision
  action_result : Option AdapterResult
  metrics_before : Option JsMetrics
  success : Option Bool
deriving DecidableEq

/-- A row of the `alerts` table as inserted by `checkAndCreateAlerts`. -/
structure AlertRow where
  campaign_id : String
  alert_type : String
  severity : String
  message : String
deriving DecidableEq

/-- A row of `performance_metrics` as written by `saveMetrics`
(src/ai-engine/campaign-monitor.js lines 370–404). -/
structure MetricsRow where
  campaign_id : String
  date : String
  impressions : ℚ
  clicks : ℚ
  conversions : ℚ
  spend : ℚ
  revenue : ℚ
  ctr : ℚ
  cpc : ℚ
  cpl : ℚ
  cpa : ℚ
  roas : ℚ
deriving DecidableEq

/-- The D1 database state: the four tables the core touches. -/
structure DBState where
  campaigns : List Campaign := []
  metricsRows : List MetricsRow := []
  ledger : List LedgerRecord := []
  alerts : List AlertRow := []
deriving DecidableEq

/-- The platform-adapter mutation capabilities the engine holds
(`this.metaAds.executeDecision` / `this.googleAds.executeDecision`), as
oracles over the external platforms. -/
structure EngineEnv where
  metaExec : String → Decision → Except String AdapterResult
  googleExec : String → Decision → Except String AdapterResult

/-- One platform-adapter `executeDecision` invocation, recorded as an effect
trace entry. -/
structure Invocation where
  platform : String
  nativeId : String
  decision : Decision
deriving DecidableEq

/-- `AIEngine.logDecision` (src/ai-engine/engine.js lines 273–286): a plain
append to `ai_decisions`; `success` is never bound. -/
def AIEngine.logDecision (st : DBState) (campaignId : String) (decisionType : String)
    (reason : String) (d : Decision) (result : Option AdapterResult)
    (metricsBefore : Option JsMetrics) : DBState :=
  { st with ledger := st.ledger ++
      [{ campaign_id := campaignId, decision_type := decisionType, reason := reason,
         action_decision := d, action_result := result,
         metrics_before := metricsBefore, success := none }] }

/-- `SELECT * FROM campaigns WHERE id = ?` (first row). -/
def findCampaign (st : DBState) (campaignId : String) : Option Campaign :=
  st.campaigns.find? (fun c => c.id == campaignId)

/-- `AIEngine.executeDecision` (src/ai-engine/engine.js lines 241–268):
look the campaign up (missing row throws), call the owning platform's
adapter — with no surrounding try/catch, so an adapter rejection propagates
before `logDecision` runs — then append the ledger record.  An unknown
platform makes no call and logs `result = undefined`.  Returns the updated
state, the adapter invocations performed, and the outcome. -/
def AIEngine.executeDecision (env : EngineEnv) (st : DBState) (campaignId : String)
    (decision : Decision) : DBState × List Invocation × Except String (Option AdapterResult) :=
  match findCampaign st campaignId with
  | none => (st, [], .error "Campaign not found")
  | some campaign =>
    if campaign.platform = "meta" then
      match env.metaExec campaign.campaign_id decision with
      | .error e => (st, [⟨"meta", campaign.campaign_id, decision⟩], .error e)
      | .ok r =>
          (AIEngine.logDecision st campaignId decision.type decision.reason decision (some r) none,
           [⟨"meta", campaign.campaign_id, decision⟩], .ok (some r))
    else if campaign.platform = "google" then
      match env.googleExec campaign.campaign_id decision with
      | .error e => (st, [⟨"google", campaign.campaign_id, decision⟩], .error e)
      | .ok r =>
          (AIEngine.logDecision st campaignId decision.type decision.reason decision (some r) none,
           [⟨"google", campaign.campaign_id, decision⟩], .ok (some r))
    else
      (AIEngine.logDecision st campaignId decision.type decision.reason decision none none,
       [], .ok none)

/-- The `for (const decision of decisions) await this.executeDecision(...)`
loop of `makeOptimizationDecision` (src/ai-engine/engine.js lines 230–233):
sequential, with no per-decision catch — the first throw aborts the rest. -/
def AIEngine.dispatchDecisions (env : EngineEnv) (campaignId : String) :
    DBState → List Decision → DBState × List Invocation × Option String
  | st, [] => (st, [], none)
  | st, d :: ds =>
    match AIEngine.executeDecision env st campaignId d with
    | (st1, tr, .error e) => (st1, tr, some e)
    | (st1, tr, .ok _) =>
      match AIEngine.dispatchDecisions env campaignId st1 ds with
      | (st2, tr2, err) => (st2, tr ++ tr2, err)

/-- `AIEngine.makeOptimizationDecision` (src/ai-engine/engine.js lines
185–236): evaluate the rule cascade, then dispatch every produced decision;
returns the decision list on success, or the propagated exception. -/
def AIEngine.makeOptimizationDecision (env : EngineEnv) (st : DBState) (campaignId : String)
    (metrics : JsMetrics) (currentHour : ℕ) :
    DBState × List Invocation × Except String (List Decision) :=
  let decisions := AIEngine.optimizationRules metrics currentHour
  let out := AIEngine.dispatchDecisions env campaignId st decisions
  (out.1, out.2.1,
    match out.2.2 with
    | none => .ok decisions
    | some e => .error e)

/-- Row construction of `saveMetrics`: each bound parameter is
`metrics.<field> || 0`, coercing properties absent from the metrics object
to `0`. -/
def mkMetricsRow (campaignId date : String) (m : JsMetrics) : MetricsRow :=
  { campaign_id := campaignId, date := date,
    impressions := jsOr0 m.impressions, clicks := jsOr0 m.clicks,
    conversions := jsOr0 m.conversions, spend := jsOr0 m.spend,
    revenue := jsOr0 m.revenue, ctr := jsOr0 m.ctr, cpc := jsOr0 m.cpc,
    cpl := jsOr0 m.cpl, cpa := jsOr0 m.cpa, roas := jsOr0 m.roas }

/-- The `(campaign_id, date)` conflict predicate of the unique index
`idx_metrics_campaign_date`. -/
def rowKeyIs (campaignId date : String) (r : MetricsRow) : Bool :=
  r.campaign_id == campaignId && r.date == date

/-- SQLite `INSERT ... ON CONFLICT(campaign_id, date) DO UPDATE` at the list
level: rows conflicting on the key are updated in place, otherwise the new
row is appended. -/
def upsertRows (campaignId date : String) (row : MetricsRow)
    (l : List MetricsRow) : List MetricsRow :=
  if l.any (rowKeyIs campaignId date) then
    l.map (fun r => if rowKeyIs campaignId date r then row else r)
  else l ++ [row]

/-- `CampaignMonitor.saveMetrics` (src/ai-engine/campaign-monitor.js lines
370–404): the bound row is upserted into `performance_metrics` keyed on
`(campaign_id, date)`.  `date` models the computed `today`. -/
def CampaignMonitor.saveMetrics (st : DBState) (campaignId date : String)
    (metrics : JsMetrics) : DBState :=
  { st with metricsRows :=
      upsertRows campaignId date (mkMetricsRow campaignId date metrics) st.metricsRows }

/-- The alert list built by `CampaignMonitor.checkAndCreateAlerts`
(src/ai-engine/campaign-monitor.js lines 409–452): three independent rules
over the metrics object and the campaign's `daily_budget`; note the budget
rule's `0.9` factor. -/
def CampaignMonitor.alertsFor (campaign : Campaign) (metrics : JsMetrics) : List AlertRow :=
  (if jsGt metrics.cpl 50 then
    [{ campaign_id := campaign.id, alert_type := "high_cpl", severity := "warning",
       message := "CPL de R$ " ++ fixed2 (jsOr0 metrics.cpl) ++ " está acima do target de R$ 50" }]
   else []) ++
  (if jsLt metrics.roas 2 && jsGt metrics.conversions 10 then
    [{ campaign_id := campaign.id, alert_type := "low_roas", severity := "critical",
       message := "ROAS de " ++ fixed2 (jsOr0 metrics.roas) ++ "x está abaixo do target de 2x" }]
   else []) ++
  (if jsGtMul metrics.spend (some campaign.daily_budget) (9/10) then
    [{ campaign_id := campaign.id, alert_type := "budget_exceeded", severity := "info",
       message := "Orçamento diário quase esgotado: R$ " ++ fixed2 (jsOr0 metrics.spend) ++
                  " de R$ " ++ toString campaign.daily_budget }]
   else [])

/-- `CampaignMonitor.checkAndCreateAlerts`: insert each produced alert into
the `alerts` table. -/
def CampaignMonitor.checkAndCreateAlerts (st : DBState) (campaign : Campaign)
    (metrics : JsMetrics) : DBState :=
  { st with alerts := st.alerts ++ CampaignMonitor.alertsFor campaign metrics }

/-- The ambient context of a monitoring pass: the per-platform
`getCampaignMetrics` oracles (an `Except.error` models a rejected promise),
the engine's adapters, today's date string and the current hour. -/
structure MonitorEnv where
  metaMetrics : String → Except String JsMetrics
  googleMetrics : String → Except String JsMetrics
  engine : EngineEnv
  today : String
  currentHour : ℕ

/-- The platform-metrics fetch of `monitorCampaign`: `platformMetrics` stays
`undefined` for an unknown platform, so the subsequent property reads throw
(modelled as an error, caught by the same per-campaign catch). -/
def CampaignMonitor.fetchPlatformMetrics (env : MonitorEnv) (campaign : Campaign) :
    Except String JsMetrics :=
  if campaign.platform = "meta" then env.metaMetrics campaign.campaign_id
  else if campaign.platform = "google" then env.googleMetrics campaign.campaign_id
  else .error "TypeError: cannot read properties of undefined"

/-- The raw counters `monitorCampaign` feeds to `calculateMetrics`
(src/ai-engine/campaign-monitor.js lines 343–349): the parsed platform
values with `|| 0` coercion, and `revenue` hard-coded to `0`. -/
def parsedCounters (pm : JsMetrics) : RawCounters :=
  { impressions := jsOr0 pm.impressions, clicks := jsOr0 pm.clicks,
    spend := jsOr0 pm.spend, conversions := jsOr0 pm.conversions, revenue := 0 }

/-- `CampaignMonitor.monitorCampaign` (src/ai-engine/campaign-monitor.js
lines 330–365).  The whole body sits in a try/catch that only logs: a fetch
error leaves the state untouched; an exception thrown while dispatching
decisions is caught after the metrics snapshot was already saved, skipping
only that campaign's alert evaluation. -/
def CampaignMonitor.monitorCampaign (env : MonitorEnv) (st : DBState)
    (campaign : Campaign) : DBState :=
  match CampaignMonitor.fetchPlatformMetrics env campaign with
  | .error _ => st
  | .ok pm =>
    let metrics := calculateMetrics (parsedCounters pm)
    let st1 := CampaignMonitor.saveMetrics st campaign.id env.today metrics
    let out := AIEngine.makeOptimizationDecision env.engine st1 campaign.id metrics env.currentHour
    match out.2.2 with
    | .error _ => out.1
    | .ok _ => CampaignMonitor.checkAndCreateAlerts out.1 campaign metrics

/-- `SELECT * FROM campaigns WHERE status = 'active'`. -/
def activeCampaigns (st : DBState) : List Campaign :=
  st.campaigns.filter (fun c => c.status == "active")

/-- `CampaignMonitor.monitorAll` (src/ai-engine/campaign-monitor.js lines
305–325): fetch the active campaigns once, then run each campaign's
sub-pipeline sequentially; `monitorCampaign` never throws (it catches
internally), so the pass always runs to the end of the list. -/
def CampaignMonitor.monitorAll (env : MonitorEnv) (st : DBState) : DBState :=
  (activeCampaigns st).foldl (CampaignMonitor.monitorCampaign env) st

/-- The property §4.1/§8 of the spec asserts of the Metrics Normalizer, at a
given input: every derived KPI is present and non-negative, and each KPI is
exactly `0` when its denominator is `0`. -/
def MetricsNormalizerSpec (d : RawCounters) : Prop :=
  (∃ v, (calculateMetrics d).ctr = some v ∧ 0 ≤ v) ∧
  (∃ v, (calculateMetrics d).cpc = some v ∧ 0 ≤ v) ∧
  (∃ v, (calculateMetrics d).cpl = some v ∧ 0 ≤ v) ∧
  (∃ v, (calculateMetrics d).cpa = some v ∧ 0 ≤ v) ∧
  (∃ v, (calculateMetrics d).roas = some v ∧ 0 ≤ v) ∧
  (∃ v, (calculateMetrics d).conversionRate = some v ∧ 0 ≤ v) ∧
  (d.impressions = 0 → (calculateMetrics d).ctr = some 0) ∧
  (d.clicks = 0 → (calculateMetrics d).cpc = some 0) ∧
  (d.conversions = 0 → (calculateMetrics d).cpl = some 0) ∧
  (d.conversions = 0 → (calculateMetrics d).cpa = some 0) ∧
  (d.spend = 0 → (calculateMetrics d).roas = some 0) ∧
  (d.clicks = 0 → (calculateMetrics d).conversionRate = some 0)

/-- C2: for every non-negative input, `calculateMetrics` (a total,
deterministic function of its argument) yields KPIs that are all present,
finite (rational) and non-negative, and each KPI is exactly `0` when its
denominator — impressions, clicks, conversions, spend, clicks respectively —
is `0`. -/
theorem calculateMetrics_nonneg_and_zero_guards (d : RawCounters)
    (hi : 0 ≤ d.impressions) (hc : 0 ≤ d.clicks) (hs : 0 ≤ d.spend)
    (hv : 0 ≤ d.conversions) (hr : 0 ≤ d.revenue) :
    MetricsNormalizerSpec d := by
  refine ⟨⟨_, rfl, ?_⟩, ⟨_, rfl, ?_⟩, ⟨_, rfl, ?_⟩, ⟨_, rfl, ?_⟩, ⟨_, rfl, ?_⟩, ⟨_, rfl, ?_⟩,
    ?_, ?_, ?_, ?_, ?_, ?_⟩
  · split_ifs with h
    · exact mul_nonneg (div_nonneg hc hi) (by norm_num)
    · exact le_refl 0
  · split_ifs with h
    · exact div_nonneg hs hc
    · exact le_refl 0
  · split_ifs with h
    · exact div_nonneg hs hv
    · exact le_refl 0
  · split_ifs with h
    · exact div_nonneg hs hv
    · exact le_refl 0
  · split_ifs with h
    · exact div_nonneg hr hs
    · exact le_refl 0
  · split_ifs with h
    · exact mul_nonneg (div_nonneg hv hc) (by norm_num)
    · exact le_refl 0
  · intro h; simp [calculateMetrics, h]
  · intro h; simp [calculateMetrics, h]
  · intro h; simp [calculateMetrics, h]
  · intro h; simp [calculateMetrics, h]
  · intro h; simp [calculateMetrics, h]
  · intro h; simp [calculateMetrics, h]

/-- C2 witness: the all-zero input satisfies the hypotheses, and the theorem
applies to it. -/
theorem calculateMetrics_nonneg_and_zero_guards_witness :
    (0 ≤ (0 : ℚ)) ∧ MetricsNormalizerSpec ⟨0, 0, 0, 0, 0⟩ :=
  ⟨le_refl 0, calculateMetrics_nonneg_and_zero_guards ⟨0, 0, 0, 0, 0⟩
    (le_refl 0) (le_refl 0) (le_refl 0) (le_refl 0) (le_refl 0)⟩

/-- C3: evaluated at the counters
`{impressions:1000, clicks:50, spend:100, conversions:10, revenue:500}`, the
object `calculateMetrics` returns carries none of the raw counters — those
five properties are absent — and only the six derived KPIs. -/
theorem calculateMetrics_omits_raw_counters :
    (calculateMetrics ⟨1000, 50, 100, 10, 500⟩).impressions = none ∧
    (calculateMetrics ⟨1000, 50, 100, 10, 500⟩).clicks = none ∧
    (calculateMetrics ⟨1000, 50, 100, 10, 500⟩).spend = none ∧
    (calculateMetrics ⟨1000, 50, 100, 10, 500⟩).conversions = none ∧
    (calculateMetrics ⟨1000, 50, 100, 10, 500⟩).revenue = none ∧
    (calculateMetrics ⟨1000, 50, 100, 10, 500⟩).ctr = some 5 ∧
    (calculateMetrics ⟨1000, 50, 100, 10, 500⟩).cpc = some 2 ∧
    (calculateMetrics ⟨1000, 50, 100, 10, 500⟩).cpl = some 10 ∧
    (calculateMetrics ⟨1000, 50, 100, 10, 500⟩).cpa = some 10 ∧
    (calculateMetrics ⟨1000, 50, 100, 10, 500⟩).roas = some 5 ∧
    (calculateMetrics ⟨1000, 50, 100, 10, 500⟩).conversionRate = some 20 := by
  decide

/-- The KPI object of claim C1:
`{cpl:60, roas:1.5, conversions:15, ctr:0.5, impressions:2000, spend:85, dailyBudget:100}`. -/
def kpiC1 : JsMetrics :=
  { cpl := some 60, roas := some (3/2), conversions := some 15, ctr := some (1/2),
    impressions := some 2000, spend := some 85, dailyBudget := some 100 }

/-- C1 counterexample: at the claimed input and hour 9, the evaluator does
emit the four action types in the claimed order, but the fourth descriptor's
reason is the fixed string "Gastando orçamento muito rápido", which contains
no digit at all — so it does not interpolate the triggering KPI value,
refuting the claim's "each". -/
theorem optimization_rules_pacing_reason_uninterpolated :
    ((AIEngine.optimizationRules kpiC1 9).map Decision.type =
      ["bid_adjustment", "budget_reallocation", "creative_refresh", "pacing_adjustment"]) ∧
    (((AIEngine.optimizationRules kpiC1 9).map Decision.reason)[3]? =
      some "Gastando orçamento muito rápido") ∧
    ("Gastando orçamento muito rápido".toList.any (fun c => c.isDigit) = false) := by
  decide

/-- The amended C1 property at hour `h`: exactly the four descriptors in
order, the first three reasons interpolating the triggering KPI value
rendered with `toFixed(2)`, the pacing reason being a fixed string. -/
def C1AmendedProp (h : ℕ) : Prop :=
  AIEngine.optimizationRules kpiC1 h =
    [{ type := "bid_adjustment", action := "decrease_bid",
       reason := "CPL de R$ 60.00 está acima do target de R$ 50",
       adjustment := some (.num (-10)) },
     { type := "budget_reallocation", action := "reduce_budget",
       reason := "ROAS de 1.50x está abaixo do target de 2x",
       adjustment := some (.num (-20)) },
     { type := "creative_refresh", action := "suggest_new_creatives",
       reason := "CTR de 0.50% está muito baixo",
       suggestion := some "Criar novos criativos com copy mais persuasivo" },
     { type := "pacing_adjustment", action := "slow_down_delivery",
       reason := "Gastando orçamento muito rápido",
       adjustment := some (.str "Mudar para entrega uniforme") }] ∧
  strContainsSub "CPL de R$ 60.00 está acima do target de R$ 50" (fixed2 60) = true ∧
  strContainsSub "ROAS de 1.50x está abaixo do target de 2x" (fixed2 (3/2)) = true ∧
  strContainsSub "CTR de 0.50% está muito baixo" (fixed2 (1/2)) = true

/-- C1 amended: for the claimed KPI input at any hour earlier than 12, the
evaluator returns exactly the four descriptors in the claimed order; the
bid, budget and creative reasons interpolate the triggering KPI value
(60.00, 1.50, 0.50), while the pacing reason is a fixed uninterpolated
string. -/
theorem optimization_rules_on_C1_input (h : ℕ) (hh : h < 12) : C1AmendedProp h := by
  have hd : decide (h < 12) = true := decide_eq_true hh
  refine ⟨?_, by decide, by decide, by decide⟩
  simp only [AIEngine.optimizationRules, hd]
  decide

/-- C1 witness: hour 9 is earlier than 12 and the amended property holds
there. -/
theorem optimization_rules_on_C1_input_witness : 9 < 12 ∧ C1AmendedProp 9 :=
  ⟨by norm_num, optimization_rules_on_C1_input 9 (by norm_num)⟩

/-- The metrics object of the C9 counterexample: healthy CPL/ROAS, spend 85
against a daily budget of 100. -/
def metricsC9 : JsMetrics :=
  { cpl := some 10, roas := some 5, conversions := some 0, spend := some 85 }

/-- The campaign row of the C9 counterexample, with `daily_budget = 100`. -/
def campaignC9 : Campaign :=
  { id := "c9", platform := "meta", campaign_id := "m9", name := "C9",
    status := "active", daily_budget := 100 }

/-- C9 counterexample: with spend 85 and daily budget 100 the claimed trigger
`spend > dailyBudget * 0.8` holds (85 > 80), yet the Alert Evaluator emits no
alert at all — its budget rule uses the factor `0.9` (85 > 90 is false), not
the `0.8` of the Decision Rule Evaluator. -/
theorem alerts_budget_threshold_counterexample :
    ((85 : ℚ) > 100 * (8/10)) ∧
    CampaignMonitor.alertsFor campaignC9 metricsC9 = [] := by
  decide

/-- C9 amended: the Alert Evaluator emits the high-CPL alert with severity
`warning` exactly when `cpl > 50`, the low-ROAS alert with severity
`critical` exactly when `roas < 2` and `conversions > 10`, and the
budget-near-exhaustion alert with severity `info` exactly when
`spend > daily_budget * 0.9` (not `0.8`); no other type/severity pair is
ever emitted. -/
theorem alerts_conditions_and_severities (c : Campaign) (m : JsMetrics) :
    ((∃ msg, AlertRow.mk c.id "high_cpl" "warning" msg ∈ CampaignMonitor.alertsFor c m) ↔
      jsGt m.cpl 50 = true) ∧
    ((∃ msg, AlertRow.mk c.id "low_roas" "critical" msg ∈ CampaignMonitor.alertsFor c m) ↔
      (jsLt m.roas 2 && jsGt m.conversions 10) = true) ∧
    ((∃ msg, AlertRow.mk c.id "budget_exceeded" "info" msg ∈ CampaignMonitor.alertsFor c m) ↔
      jsGtMul m.spend (some c.daily_budget) (9/10) = true) ∧
    (∀ a ∈ CampaignMonitor.alertsFor c m,
      (a.alert_type, a.severity) ∈
        [("high_cpl", "warning"), ("low_roas", "critical"), ("budget_exceeded", "info")]) := by
  cases h1 : jsGt m.cpl 50 <;>
    cases h2 : (jsLt m.roas 2 && jsGt m.conversions 10) <;>
      cases h3 : jsGtMul m.spend (some c.daily_budget) (9/10) <;>
        simp [CampaignMonitor.alertsFor, h1, h2, h3]

/-- The decision types the adapters' `switch` statements handle with a
non-default branch. -/
def handledDecisionTypes : List String :=
  ["bid_adjustment", "budget_reallocation", "pause_campaign"]

/-- C8: under oracles where every platform HTTP call resolves, both
adapters' `executeDecision` returns normally for every decision: handled
types yield `success = true`, and any decision whose type is not handled
yields `{success := false}` instead of throwing. -/
theorem adapters_executeDecision_total (mnet : MetaCall → Except String Unit)
    (gnet : GoogleCall → Except String Unit)
    (hm : ∀ c, mnet c = .ok ()) (hg : ∀ c, gnet c = .ok ())
    (cid : String) (d : Decision) :
    (∃ r, MetaAdsIntegration.executeDecision mnet cid d = .ok r ∧
      (r.success = false ↔ d.type ∉ handledDecisionTypes)) ∧
    (∃ r, GoogleAdsIntegration.executeDecision gnet cid d = .ok r ∧
      (r.success = false ↔ d.type ∉ handledDecisionTypes)) := by
  constructor
  · unfold MetaAdsIntegration.executeDecision
    split_ifs with h1 h2 h3
    · exact ⟨_, rfl, by simp [handledDecisionTypes, h1]⟩
    · rw [hm]
      exact ⟨_, rfl, by simp [handledDecisionTypes, h2]⟩
    · rw [hm]
      exact ⟨_, rfl, by simp [handledDecisionTypes, h3]⟩
    · exact ⟨_, rfl, by simp [handledDecisionTypes, h1, h2, h3]⟩
  · unfold GoogleAdsIntegration.executeDecision
    rw [hg]
    split_ifs with h1 h2 h3
    · exact ⟨_, rfl, by simp [handledDecisionTypes, h1]⟩
    · exact ⟨_, rfl, by simp [handledDecisionTypes, h2]⟩
    · rw [hg]
      exact ⟨_, rfl, by simp [handledDecisionTypes, h3]⟩
    · exact ⟨_, rfl, by simp [handledDecisionTypes, h1, h2, h3]⟩

/-- An always-resolving Meta fetch oracle. -/
def mnetOK : MetaCall → Except String Unit := fun _ => .ok ()

/-- An always-resolving Google fetch oracle. -/
def gnetOK : GoogleCall → Except String Unit := fun _ => .ok ()

/-- A decision of a type neither adapter's `switch` handles. -/
def unknownTypeDecision : Decision := { type := "creative_refresh" }

/-- C8 witness: the always-resolving oracles satisfy the hypotheses, and the
theorem applies to the unhandled decision type `creative_refresh`. -/
theorem adapters_executeDecision_total_witness :
    (∀ c, mnetOK c = .ok ()) ∧ (∀ c, gnetOK c = .ok ()) ∧
    ((∃ r, MetaAdsIntegration.executeDecision mnetOK "123" unknownTypeDecision = .ok r ∧
        (r.success = false ↔ unknownTypeDecision.type ∉ handledDecisionTypes)) ∧
     (∃ r, GoogleAdsIntegration.executeDecision gnetOK "123" unknownTypeDecision = .ok r ∧
        (r.success = false ↔ unknownTypeDecision.type ∉ handledDecisionTypes))) :=
  ⟨fun _ => rfl, fun _ => rfl,
    adapters_executeDecision_total mnetOK gnetOK (fun _ => rfl) (fun _ => rfl)
      "123" unknownTypeDecision⟩

/-- `true` exactly when an `Except` is an error (a thrown/rejected JS
promise in this model). -/
def exceptErrored {α : Type} : Except String α → Bool
  | .error _ => true
  | .ok _ => false

/-- A campaign row used to run the engine on concrete inputs. -/
def campaignEngine : Campaign :=
  { id := "c1", platform := "meta", campaign_id := "m1", name := "Campanha",
    status := "active", daily_budget := 100 }

/-- A database state holding only `campaignEngine`, with empty metrics,
ledger and alert tables. -/
def stEngine : DBState := { campaigns := [campaignEngine] }

/-- An adapter environment whose Meta adapter rejects `bid_adjustment`
mutations (a platform API error) and resolves everything else. -/
def envMetaFails : EngineEnv :=
  { metaExec := fun _ d =>
      if d.type == "bid_adjustment" then .error "Meta API Error: network"
      else .ok { success := true },
    googleExec := fun _ _ => .ok { success := true } }

/-- C4 counterexample: on the C1 KPI input the evaluator produces 4
decisions; when the platform call for the first one rejects, the engine
writes no Decision Ledger record at all (in particular none with
`success = false`), dispatches none of the remaining 3 decisions (exactly
one adapter invocation happened), and the exception propagates out of
`makeOptimizationDecision`. -/
theorem decision_error_aborts_loop_counterexample :
    ((AIEngine.optimizationRules kpiC1 9).length = 4) ∧
    ((AIEngine.makeOptimizationDecision envMetaFails stEngine "c1" kpiC1 9).1.ledger = []) ∧
    ((AIEngine.makeOptimizationDecision envMetaFails stEngine "c1" kpiC1 9).2.1.map
        (fun i => i.decision.type) = ["bid_adjustment"]) ∧
    (exceptErrored (AIEngine.makeOptimizationDecision envMetaFails stEngine "c1" kpiC1 9).2.2
      = true) := by
  decide

/-- C4 amended: when the platform adapter call for a decision rejects, the
exception propagates out of the dispatch loop uncaught: the database state —
the Decision Ledger included — is left exactly as it was before that
decision, no `success = false` record is written for it, the failing
invocation is the only adapter call made, and the remaining decisions of
that campaign are never dispatched. -/
theorem decision_error_aborts_loop (env : EngineEnv) (st : DBState) (cid : String)
    (c : Campaign) (d : Decision) (ds : List Decision) (e : String)
    (hc : findCampaign st cid = some c) (hp : c.platform = "meta")
    (he : env.metaExec c.campaign_id d = .error e) :
    AIEngine.dispatchDecisions env cid st (d :: ds) =
      (st, [⟨"meta", c.campaign_id, d⟩], some e) ∧
    (AIEngine.dispatchDecisions env cid st (d :: ds)).1.ledger = st.ledger := by
  have h1 : AIEngine.executeDecision env st cid d =
      (st, [⟨"meta", c.campaign_id, d⟩], .error e) := by
    unfold AIEngine.executeDecision
    rw [hc]
    simp [hp, he]
  have h2 : AIEngine.dispatchDecisions env cid st (d :: ds) =
      (st, [⟨"meta", c.campaign_id, d⟩], some e) := by
    unfold AIEngine.dispatchDecisions
    rw [h1]
  exact ⟨h2, by rw [h2]⟩

/-- The failing decision of the C4 witness. -/
def decisionBidW : Decision := { type := "bid_adjustment" }

/-- C4 witness: the hypotheses hold for the concrete failing environment,
campaign store and decision list, and the amended theorem applies there. -/
theorem decision_error_aborts_loop_witness :
    (findCampaign stEngine "c1" = some campaignEngine ∧
     campaignEngine.platform = "meta" ∧
     envMetaFails.metaExec campaignEngine.campaign_id decisionBidW =
       .error "Meta API Error: network") ∧
    (AIEngine.dispatchDecisions envMetaFails "c1" stEngine
        (decisionBidW :: [{ type := "budget_reallocation" }]) =
      (stEngine, [⟨"meta", campaignEngine.campaign_id, decisionBidW⟩],
        some "Meta API Error: network") ∧
     (AIEngine.dispatchDecisions envMetaFails "c1" stEngine
        (decisionBidW :: [{ type := "budget_reallocation" }])).1.ledger = stEngine.ledger) :=
  ⟨⟨rfl, rfl, rfl⟩,
    decision_error_aborts_loop envMetaFails stEngine "c1" campaignEngine decisionBidW
      [{ type := "budget_reallocation" }] "Meta API Error: network" rfl rfl rfl⟩

/-- The engine environment wired to the modelled platform adapters with
always-resolving fetch oracles. -/
def envRealAdapters : EngineEnv :=
  { metaExec := MetaAdsIntegration.executeDecision mnetOK,
    googleExec := GoogleAdsIntegration.executeDecision gnetOK }

/-- C5 counterexample: on the C1 KPI input, `makeOptimizationDecision`
dispatches all four produced decisions to the platform adapter's
`executeDecision` — the advisory `creative_refresh` and `pacing_adjustment`
included — and the evaluation call itself writes four Decision Ledger
records into a previously empty ledger. -/
theorem advisory_types_dispatched_counterexample :
    ((AIEngine.makeOptimizationDecision envRealAdapters stEngine "c1" kpiC1 9).2.1.map
        (fun i => i.decision.type) =
      ["bid_adjustment", "budget_reallocation", "creative_refresh", "pacing_adjustment"]) ∧
    ((AIEngine.makeOptimizationDecision envRealAdapters stEngine "c1" kpiC1 9).1.ledger.map
        LedgerRecord.decision_type =
      ["bid_adjustment", "budget_reallocation", "creative_refresh", "pacing_adjustment"]) ∧
    (stEngine.ledger = []) := by
  decide

/-- Stepping lemma: with the campaign resolvable to a Meta campaign and an
adapter that resolves every call, the dispatch loop invokes the adapter once
per decision, in order. -/
theorem dispatchDecisions_trace_all (env : EngineEnv) (cid : String) (c : Campaign)
    (hp : c.platform = "meta")
    (hok : ∀ d, ∃ r, env.metaExec c.campaign_id d = .ok r) :
    ∀ (ds : List Decision) (st : DBState), findCampaign st cid = some c →
      (AIEngine.dispatchDecisions env cid st ds).2.1.map Invocation.decision = ds := by
  intro ds
  induction ds with
  | nil => intro st hc; rfl
  | cons d ds ih =>
    intro st hc
    obtain ⟨r, hr⟩ := hok d
    have h1 : AIEngine.executeDecision env st cid d =
        (AIEngine.logDecision st cid d.type d.reason d (some r) none,
         [⟨"meta", c.campaign_id, d⟩], .ok (some r)) := by
      unfold AIEngine.executeDecision
      rw [hc]
      simp [hp, hr]
    have hc1 : findCampaign (AIEngine.logDecision st cid d.type d.reason d (some r) none) cid =
        some c := hc
    have h2 := ih (AIEngine.logDecision st cid d.type d.reason d (some r) none) hc1
    unfold AIEngine.dispatchDecisions
    rw [h1]
    cases h3 : AIEngine.dispatchDecisions env cid
        (AIEngine.logDecision st cid d.type d.reason d (some r) none) ds with
    | mk st2 rest =>
      cases rest with
      | mk tr2 err =>
        rw [h3] at h2
        simp_all

/-- C5 amended: the evaluator does not separate advisory from
platform-mutating types — for a Meta campaign whose adapter resolves every
call, every action descriptor the rule cascade produces is dispatched to the
platform adapter's `executeDecision`, advisory types included; evaluation and
dispatch happen inside the same `makeOptimizationDecision` call. -/
theorem all_produced_decisions_dispatched (env : EngineEnv) (st : DBState) (cid : String)
    (c : Campaign) (m : JsMetrics) (h : ℕ)
    (hc : findCampaign st cid = some c) (hp : c.platform = "meta")
    (hok : ∀ d, ∃ r, env.metaExec c.campaign_id d = .ok r) :
    (AIEngine.makeOptimizationDecision env st cid m h).2.1.map Invocation.decision =
      AIEngine.optimizationRules m h := by
  have key := dispatchDecisions_trace_all env cid c hp hok (AIEngine.optimizationRules m h) st hc
  exact key

/-- An adapter environment that resolves every call with `{success := true}`. -/
def envAllOk : EngineEnv :=
  { metaExec := fun _ _ => .ok { success := true },
    googleExec := fun _ _ => .ok { success := true } }

/-- C5 witness: the hypotheses hold for the concrete store and
always-resolving environment, and the amended theorem applies to the C1 KPI
input at hour 9. -/
theorem all_produced_decisions_dispatched_witness :
    (findCampaign stEngine "c1" = some campaignEngine ∧
     campaignEngine.platform = "meta" ∧
     (∀ d, ∃ r, envAllOk.metaExec campaignEngine.campaign_id d = .ok r)) ∧
    (AIEngine.makeOptimizationDecision envAllOk stEngine "c1" kpiC1 9).2.1.map
        Invocation.decision =
      AIEngine.optimizationRules kpiC1 9 :=
  ⟨⟨rfl, rfl, fun _ => ⟨_, rfl⟩⟩,
    all_produced_decisions_dispatched envAllOk stEngine "c1" campaignEngine kpiC1 9
      rfl rfl (fun _ => ⟨_, rfl⟩)⟩

/-- The `(campaign_id, date)` key column pair of a metrics row. -/
def rowKey (r : MetricsRow) : String × String := (r.campaign_id, r.date)

/-- The key column pairs of the whole `performance_metrics` table. -/
def metricsKeys (st : DBState) : List (String × String) :=
  st.metricsRows.map rowKey

/-- `SELECT` of the unique metrics row for a `(campaign_id, date)` key. -/
def findRow (st : DBState) (campaignId date : String) : Option MetricsRow :=
  st.metricsRows.find? (rowKeyIs campaignId date)

/-- A sequence of `saveMetrics` writes, each given as
`(campaignId, date, metrics)`. -/
def applySaves (st : DBState) (calls : List (String × String × JsMetrics)) : DBState :=
  calls.foldl (fun s c => CampaignMonitor.saveMetrics s c.1 c.2.1 c.2.2) st

theorem rowKeyIs_iff (campaignId date : String) (r : MetricsRow) :
    rowKeyIs campaignId date r = true ↔ r.campaign_id = campaignId ∧ r.date = date := by
  simp [rowKeyIs]

theorem rowKeyIs_mkMetricsRow (campaignId date : String) (m : JsMetrics) :
    rowKeyIs campaignId date (mkMetricsRow campaignId date m) = true := by
  simp [rowKeyIs, mkMetricsRow]

theorem find?_map_replace_pos (q : MetricsRow → Bool) (row : MetricsRow)
    (hq : q row = true) :
    ∀ l : List MetricsRow, l.any q = true →
      (l.map fun r => if q r then row else r).find? q = some row := by
  intro l
  induction l with
  | nil => simp
  | cons a l ih =>
    intro h
    by_cases ha : q a = true
    · simp [ha, hq]
    · simp only [Bool.not_eq_true] at ha
      simp only [List.any_cons, ha, Bool.false_or] at h
      simp [ha, ih h]

theorem find?_map_replace_neg (q p : MetricsRow → Bool) (row : MetricsRow)
    (hpr : p row = false) (himp : ∀ r, q r = true → p r = false) :
    ∀ l : List MetricsRow,
      (l.map fun r => if q r then row else r).find? p = l.find? p := by
  intro l
  induction l with
  | nil => simp
  | cons a l ih =>
    by_cases ha : q a = true
    · have hpa : p a = false := himp a ha
      simp [ha, hpr, hpa, ih]
    · simp only [Bool.not_eq_true] at ha
      by_cases hpa : p a = true
      · simp [ha, hpa]
      · simp only [Bool.not_eq_true] at hpa
        simp [ha, hpa, ih]

theorem map_rowKey_replace (q : MetricsRow → Bool) (row : MetricsRow)
    (hkey : ∀ r, q r = true → rowKey r = rowKey row) :
    ∀ l : List MetricsRow,
      (l.map fun r => if q r then row else r).map rowKey = l.map rowKey := by
  intro l
  induction l with
  | nil => rfl
  | cons a l ih =>
    by_cases ha : q a = true
    · simp [ha, ih, hkey a ha]
    · simp only [Bool.not_eq_true] at ha
      simp [ha, ih]

/-- Point lookup after one upsert: the written key now maps to the written
row; every other key is untouched. -/
theorem findRow_saveMetrics (st : DBState) (campaignId date : String) (m : JsMetrics)
    (cid2 date2 : String) :
    findRow (CampaignMonitor.saveMetrics st campaignId date m) cid2 date2 =
      if cid2 = campaignId ∧ date2 = date then some (mkMetricsRow campaignId date m)
      else findRow st cid2 date2 := by
  by_cases hkey : cid2 = campaignId ∧ date2 = date
  · obtain ⟨h1, h2⟩ := hkey
    subst h1; subst h2
    simp only [if_pos (And.intro rfl rfl)]
    unfold findRow CampaignMonitor.saveMetrics upsertRows
    by_cases hany : st.metricsRows.any (rowKeyIs cid2 date2) = true
    · simp only [hany, if_pos rfl]
      exact find?_map_replace_pos _ _ (rowKeyIs_mkMetricsRow cid2 date2 m) _ hany
    · simp only [Bool.not_eq_true] at hany
      rw [if_neg (by simp [hany])]
      rw [List.find?_append]
      have hnone : st.metricsRows.find? (rowKeyIs cid2 date2) = none := by
        rw [List.find?_eq_none]
        intro x hx hpx
        have := List.any_eq_false.mp hany x hx
        exact this hpx
      simp [hnone, rowKeyIs_mkMetricsRow cid2 date2 m]
  · rw [if_neg hkey]
    unfold findRow CampaignMonitor.saveMetrics upsertRows
    have hpr : rowKeyIs cid2 date2 (mkMetricsRow campaignId date m) = false := by
      rw [Bool.eq_false_iff]
      intro hc
      have h2 := (rowKeyIs_iff cid2 date2 _).mp hc
      simp only [mkMetricsRow] at h2
      exact hkey ⟨h2.1.symm, h2.2.symm⟩
    have himp : ∀ r, rowKeyIs campaignId date r = true → rowKeyIs cid2 date2 r = false := by
      intro r hr
      obtain ⟨e1, e2⟩ := (rowKeyIs_iff campaignId date r).mp hr
      rw [Bool.eq_false_iff]
      intro hc
      obtain ⟨f1, f2⟩ := (rowKeyIs_iff cid2 date2 r).mp hc
      exact hkey ⟨by rw [← f1, e1], by rw [← f2, e2]⟩
    by_cases hany : st.metricsRows.any (rowKeyIs campaignId date) = true
    · simp only [hany, if_pos rfl]
      exact find?_map_replace_neg _ _ _ hpr himp _
    · simp only [Bool.not_eq_true] at hany
      rw [if_neg (by simp [hany])]
      rw [List.find?_append]
      simp [hpr]

theorem metricsKeys_saveMetrics (st : DBState) (campaignId date : String) (m : JsMetrics) :
    metricsKeys (CampaignMonitor.saveMetrics st campaignId date m) =
      if st.metricsRows.any (rowKeyIs campaignId date) then metricsKeys st
      else metricsKeys st ++ [(campaignId, date)] := by
  unfold metricsKeys CampaignMonitor.saveMetrics upsertRows
  by_cases hany : st.metricsRows.any (rowKeyIs campaignId date) = true
  · rw [if_pos hany, if_pos hany]
    apply map_rowKey_replace
    intro r hr
    obtain ⟨e1, e2⟩ := (rowKeyIs_iff campaignId date r).mp hr
    simp [rowKey, mkMetricsRow, e1, e2]
  · rw [if_neg hany, if_neg hany]
    simp [rowKey, mkMetricsRow]

theorem nodup_keys_saveMetrics (st : DBState) (campaignId date : String) (m : JsMetrics)
    (h : (metricsKeys st).Nodup) :
    (metricsKeys (CampaignMonitor.saveMetrics st campaignId date m)).Nodup := by
  rw [metricsKeys_saveMetrics]
  by_cases hany : st.metricsRows.any (rowKeyIs campaignId date) = true
  · rw [if_pos hany]; exact h
  · rw [if_neg hany]
    rw [List.nodup_append]
    refine ⟨h, List.nodup_singleton _, ?_⟩
    intro k hk hk2
    simp only [List.mem_singleton] at hk2
    subst hk2
    simp only [Bool.not_eq_true] at hany
    obtain ⟨r, hr, hkey⟩ := List.mem_map.mp hk
    have : rowKeyIs campaignId date r = true := by
      obtain ⟨e1, e2⟩ := Prod.mk.injEq .. ▸ hkey
      exact (rowKeyIs_iff campaignId date r).mpr ⟨e1, e2⟩
    have := List.any_eq_false.mp hany r hr
    simp_all

/-- C7: starting from any store with at most one metrics row per
`(campaign_id, date)` key, after any sequence of `saveMetrics` calls the
store still has at most one row per key, and the row found for each key
holds exactly the values of the latest write for that key (or the original
row if the sequence never wrote it). -/
theorem saveMetrics_upsert_latest (st : DBState) (calls : List (String × String × JsMetrics))
    (h : (metricsKeys st).Nodup) :
    (metricsKeys (applySaves st calls)).Nodup ∧
    ∀ cid date, findRow (applySaves st calls) cid date =
      (match calls.reverse.find? (fun c => c.1 == cid && c.2.1 == date) with
       | some c => some (mkMetricsRow c.1 c.2.1 c.2.2)
       | none => findRow st cid date) := by
  induction calls generalizing st with
  | nil => exact ⟨h, fun cid date => by simp [applySaves]⟩
  | cons c0 cs ih =>
    obtain ⟨ih1, ih2⟩ :=
      ih (CampaignMonitor.saveMetrics st c0.1 c0.2.1 c0.2.2)
        (nodup_keys_saveMetrics st c0.1 c0.2.1 c0.2.2 h)
    refine ⟨ih1, ?_⟩
    intro cid date
    have hstep : applySaves st (c0 :: cs) =
        applySaves (CampaignMonitor.saveMetrics st c0.1 c0.2.1 c0.2.2) cs := rfl
    rw [hstep, ih2 cid date, List.reverse_cons, List.find?_append]
    cases hfind : cs.reverse.find? (fun c => c.1 == cid && c.2.1 == date) with
    | some c => simp
    | none =>
      simp only [Option.none_or, List.find?_singleton]
      by_cases hp : (c0.1 == cid && c0.2.1 == date) = true
      · obtain ⟨e1, e2⟩ : c0.1 = cid ∧ c0.2.1 = date := by simpa using hp
        rw [if_pos hp, findRow_saveMetrics, if_pos ⟨e1.symm, e2.symm⟩]
      · rw [if_neg hp, findRow_saveMetrics, if_neg ?hne]
        case hne =>
          intro hc
          exact hp (by simp [hc.1.symm, hc.2.symm])

theorem executeDecision_preserves (env : EngineEnv) (st : DBState) (cid : String)
    (d : Decision) :
    (AIEngine.executeDecision env st cid d).1.metricsRows = st.metricsRows ∧
    (AIEngine.executeDecision env st cid d).1.alerts = st.alerts ∧
    (AIEngine.executeDecision env st cid d).1.campaigns = st.campaigns := by
  unfold AIEngine.executeDecision
  split
  · exact ⟨rfl, rfl, rfl⟩
  · split_ifs
    · split <;> exact ⟨rfl, rfl, rfl⟩
    · split <;> exact ⟨rfl, rfl, rfl⟩
    · exact ⟨rfl, rfl, rfl⟩

theorem dispatchDecisions_preserves (env : EngineEnv) (cid : String) :
    ∀ (ds : List Decision) (st : DBState),
      (AIEngine.dispatchDecisions env cid st ds).1.metricsRows = st.metricsRows ∧
      (AIEngine.dispatchDecisions env cid st ds).1.alerts = st.alerts ∧
      (AIEngine.dispatchDecisions env cid st ds).1.campaigns = st.campaigns := by
  intro ds
  induction ds with
  | nil => exact fun st => ⟨rfl, rfl, rfl⟩
  | cons d ds ih =>
    intro st
    have hx := executeDecision_preserves env st cid d
    unfold AIEngine.dispatchDecisions
    cases he : AIEngine.executeDecision env st cid d with
    | mk st1 rest =>
      rw [he] at hx
      cases rest with
      | mk tr res =>
        cases res with
        | error e => exact hx
        | ok r =>
          have hr := ih st1
          exact ⟨hr.1.trans hx.1, hr.2.1.trans hx.2.1, hr.2.2.trans hx.2.2⟩

theorem monitorCampaign_fetch_error (env : MonitorEnv) (st : DBState) (c : Campaign)
    (e : String) (he : CampaignMonitor.fetchPlatformMetrics env c = .error e) :
    CampaignMonitor.monitorCampaign env st c = st := by
  unfold CampaignMonitor.monitorCampaign
  rw [he]

theorem monitorCampaign_ok_shape (env : MonitorEnv) (st : DBState) (c : Campaign)
    (pm : JsMetrics)
    (hf : CampaignMonitor.fetchPlatformMetrics env c = .ok pm)
    (hdisp : exceptErrored
        (AIEngine.makeOptimizationDecision env.engine
          (CampaignMonitor.saveMetrics st c.id env.today (calculateMetrics (parsedCounters pm)))
          c.id (calculateMetrics (parsedCounters pm)) env.currentHour).2.2 = false) :
    CampaignMonitor.monitorCampaign env st c =
      CampaignMonitor.checkAndCreateAlerts
        (AIEngine.makeOptimizationDecision env.engine
          (CampaignMonitor.saveMetrics st c.id env.today (calculateMetrics (parsedCounters pm)))
          c.id (calculateMetrics (parsedCounters pm)) env.currentHour).1
        c (calculateMetrics (parsedCounters pm)) := by
  simp only [CampaignMonitor.monitorCampaign, hf]
  cases hE : (AIEngine.makeOptimizationDecision env.engine
      (CampaignMonitor.saveMetrics st c.id env.today (calculateMetrics (parsedCounters pm)))
      c.id (calculateMetrics (parsedCounters pm)) env.currentHour).2.2 with
  | error e2 =>
    rw [hE] at hdisp
    simp [exceptErrored] at hdisp
  | ok ds => rfl

/-- C6: in a monitoring pass over active campaigns `[c1, c2]` where the
platform adapter's metrics call throws for `c1` and succeeds for `c2` (and
`c2`'s decision dispatch does not throw), the pass still runs `c2`'s whole
sub-pipeline and terminates normally: the final state is exactly
`monitorCampaign` applied to `c2`, the metrics snapshot computed for `c2` is
present in the store, and `c2`'s alerts were evaluated and appended. -/
theorem monitoring_pass_isolates_campaign_failure
    (env : MonitorEnv) (st : DBState) (c1 c2 : Campaign) (e : String) (pm : JsMetrics)
    (hact : activeCampaigns st = [c1, c2])
    (hp1 : c1.platform = "meta") (he1 : env.metaMetrics c1.campaign_id = .error e)
    (hp2 : c2.platform = "meta") (hok2 : env.metaMetrics c2.campaign_id = .ok pm)
    (hdisp : exceptErrored
        (AIEngine.makeOptimizationDecision env.engine
          (CampaignMonitor.saveMetrics st c2.id env.today (calculateMetrics (parsedCounters pm)))
          c2.id (calculateMetrics (parsedCounters pm)) env.currentHour).2.2 = false) :
    CampaignMonitor.monitorAll env st = CampaignMonitor.monitorCampaign env st c2 ∧
    findRow (CampaignMonitor.monitorAll env st) c2.id env.today =
      some (mkMetricsRow c2.id env.today (calculateMetrics (parsedCounters pm))) ∧
    (CampaignMonitor.monitorAll env st).alerts =
      st.alerts ++ CampaignMonitor.alertsFor c2 (calculateMetrics (parsedCounters pm)) := by
  have hf1 : CampaignMonitor.fetchPlatformMetrics env c1 = .error e := by
    simp [CampaignMonitor.fetchPlatformMetrics, hp1, he1]
  have hf2 : CampaignMonitor.fetchPlatformMetrics env c2 = .ok pm := by
    simp [CampaignMonitor.fetchPlatformMetrics, hp2, hok2]
  have hskip : CampaignMonitor.monitorCampaign env st c1 = st :=
    monitorCampaign_fetch_error env st c1 e hf1
  have hall : CampaignMonitor.monitorAll env st = CampaignMonitor.monitorCampaign env st c2 := by
    unfold CampaignMonitor.monitorAll
    rw [hact]
    simp only [List.foldl_cons, List.foldl_nil, hskip]
  have hrun := monitorCampaign_ok_shape env st c2 pm hf2 hdisp
  have hpres := dispatchDecisions_preserves env.engine c2.id
    (AIEngine.optimizationRules (calculateMetrics (parsedCounters pm)) env.currentHour)
    (CampaignMonitor.saveMetrics st c2.id env.today (calculateMetrics (parsedCounters pm)))
  refine ⟨hall, ?_, ?_⟩
  · rw [hall, hrun]
    unfold findRow CampaignMonitor.checkAndCreateAlerts
    have hmr : (AIEngine.makeOptimizationDecision env.engine
        (CampaignMonitor.saveMetrics st c2.id env.today (calculateMetrics (parsedCounters pm)))
        c2.id (calculateMetrics (parsedCounters pm)) env.currentHour).1.metricsRows =
        (CampaignMonitor.saveMetrics st c2.id env.today
          (calculateMetrics (parsedCounters pm))).metricsRows := hpres.1
    show (AIEngine.makeOptimizationDecision env.engine
        (CampaignMonitor.saveMetrics st c2.id env.today (calculateMetrics (parsedCounters pm)))
        c2.id (calculateMetrics (parsedCounters pm)) env.currentHour).1.metricsRows.find?
        (rowKeyIs c2.id env.today) = _
    rw [hmr]
    have := findRow_saveMetrics st c2.id env.today (calculateMetrics (parsedCounters pm))
      c2.id env.today
    rw [if_pos ⟨rfl, rfl⟩] at this
    exact this
  · rw [hall, hrun]
    have halerts : (AIEngine.makeOptimizationDecision env.engine
        (CampaignMonitor.saveMetrics st c2.id env.today (calculateMetrics (parsedCounters pm)))
        c2.id (calculateMetrics (parsedCounters pm)) env.currentHour).1.alerts =
        (CampaignMonitor.saveMetrics st c2.id env.today
          (calculateMetrics (parsedCounters pm))).alerts := hpres.2.1
    show (AIEngine.makeOptimizationDecision env.engine
        (CampaignMonitor.saveMetrics st c2.id env.today (calculateMetrics (parsedCounters pm)))
        c2.id (calculateMetrics (parsedCounters pm)) env.currentHour).1.alerts ++ _ = _
    rw [halerts]
    rfl

/-- First campaign of the concrete monitoring pass: its metrics fetch will
reject. -/
def campaignW1 : Campaign :=
  { id := "w1", platform := "meta", campaign_id := "mw1", name := "W1",
    status := "active", daily_budget := 100 }

/-- Second campaign of the concrete monitoring pass. -/
def campaignW2 : Campaign :=
  { id := "w2", platform := "meta", campaign_id := "mw2", name := "W2",
    status := "active", daily_budget := 100 }

/-- Store holding the two active campaigns of the concrete pass. -/
def stMonitor : DBState := { campaigns := [campaignW1, campaignW2] }

/-- Platform metrics the adapter reports for the second campaign. -/
def pmW : JsMetrics :=
  { impressions := some 1000, clicks := some 50, spend := some 600, conversions := some 10 }

/-- A monitoring environment whose Meta metrics fetch rejects for `mw1` and
resolves with `pmW` for every other campaign. -/
def envMonitor : MonitorEnv :=
  { metaMetrics := fun cid => if cid == "mw1" then .error "Meta API Error" else .ok pmW,
    googleMetrics := fun _ => .ok {},
    engine := envAllOk,
    today := "2026-10-11",
    currentHour := 9 }

/-- C6 witness: the hypotheses hold in the concrete two-campaign pass and
the theorem applies to it. -/
theorem monitoring_pass_isolates_campaign_failure_witness :
    (activeCampaigns stMonitor = [campaignW1, campaignW2] ∧
     campaignW1.platform = "meta" ∧
     envMonitor.metaMetrics campaignW1.campaign_id = .error "Meta API Error" ∧
     campaignW2.platform = "meta" ∧
     envMonitor.metaMetrics campaignW2.campaign_id = .ok pmW ∧
     exceptErrored
        (AIEngine.makeOptimizationDecision envMonitor.engine
          (CampaignMonitor.saveMetrics stMonitor campaignW2.id envMonitor.today
            (calculateMetrics (parsedCounters pmW)))
          campaignW2.id (calculateMetrics (parsedCounters pmW)) envMonitor.currentHour).2.2 =
       false) ∧
    (CampaignMonitor.monitorAll envMonitor stMonitor =
        CampaignMonitor.monitorCampaign envMonitor stMonitor campaignW2 ∧
     findRow (CampaignMonitor.monitorAll envMonitor stMonitor) campaignW2.id envMonitor.today =
        some (mkMetricsRow campaignW2.id envMonitor.today
          (calculateMetrics (parsedCounters pmW))) ∧
     (CampaignMonitor.monitorAll envMonitor stMonitor).alerts =
        stMonitor.alerts ++
          CampaignMonitor.alertsFor campaignW2 (calculateMetrics (parsedCounters pmW))) :=
  ⟨⟨by decide, rfl, rfl, rfl, rfl, by decide⟩,
    monitoring_pass_isolates_campaign_failure envMonitor stMonitor campaignW1 campaignW2
      "Meta API Error" pmW (by decide) rfl rfl rfl rfl (by decide)⟩

theorem mem_saveMetrics (st : DBState) (campaignId date : String) (m : JsMetrics)
    (r : MetricsRow) (hr : r ∈ (CampaignMonitor.saveMetrics st campaignId date m).metricsRows) :
    r ∈ st.metricsRows ∨ r = mkMetricsRow campaignId date m := by
  unfold CampaignMonitor.saveMetrics upsertRows at hr
  by_cases hany : st.metricsRows.any (rowKeyIs campaignId date) = true
  · rw [if_pos hany] at hr
    obtain ⟨a, ha, hfa⟩ := List.mem_map.mp hr
    by_cases hq : rowKeyIs campaignId date a = true
    · rw [if_pos hq] at hfa
      exact Or.inr hfa.symm
    · rw [if_neg hq] at hfa
      exact Or.inl (hfa ▸ ha)
  · rw [if_neg hany] at hr
    rcases List.mem_append.mp hr with h | h
    · exact Or.inl h
    · exact Or.inr (List.mem_singleton.mp h)

/-- The five raw-counter columns of a metrics row are all zero. -/
def zeroCounters (r : MetricsRow) : Prop :=
  r.impressions = 0 ∧ r.clicks = 0 ∧ r.conversions = 0 ∧ r.spend = 0 ∧ r.revenue = 0

instance (r : MetricsRow) : Decidable (zeroCounters r) := by
  unfold zeroCounters
  infer_instance

theorem mem_monitorCampaign (env : MonitorEnv) (st : DBState) (c : Campaign)
    (r : MetricsRow) :
    r ∈ (CampaignMonitor.monitorCampaign env st c).metricsRows →
      r ∈ st.metricsRows ∨ zeroCounters r := by
  unfold CampaignMonitor.monitorCampaign
  cases CampaignMonitor.fetchPlatformMetrics env c with
  | error e => exact fun hr => Or.inl hr
  | ok pm =>
    simp only []
    have hpres := dispatchDecisions_preserves env.engine c.id
      (AIEngine.optimizationRules (calculateMetrics (parsedCounters pm)) env.currentHour)
      (CampaignMonitor.saveMetrics st c.id env.today (calculateMetrics (parsedCounters pm)))
    cases (AIEngine.makeOptimizationDecision env.engine
        (CampaignMonitor.saveMetrics st c.id env.today (calculateMetrics (parsedCounters pm)))
        c.id (calculateMetrics (parsedCounters pm)) env.currentHour).2.2 with
    | error e2 =>
      intro hr
      have hr1 : r ∈ (CampaignMonitor.saveMetrics st c.id env.today
          (calculateMetrics (parsedCounters pm))).metricsRows := hpres.1 ▸ hr
      rcases mem_saveMetrics _ _ _ _ _ hr1 with h | h
      · exact Or.inl h
      · exact Or.inr (by rw [h]; exact ⟨rfl, rfl, rfl, rfl, rfl⟩)
    | ok ds =>
      intro hr
      have hr1 : r ∈ (CampaignMonitor.saveMetrics st c.id env.today
          (calculateMetrics (parsedCounters pm))).metricsRows := hpres.1 ▸ hr
      rcases mem_saveMetrics _ _ _ _ _ hr1 with h | h
      · exact Or.inl h
      · exact Or.inr (by rw [h]; exact ⟨rfl, rfl, rfl, rfl, rfl⟩)

/-- C10: every metrics row present after a monitoring pass either predates
the pass or has all five raw-counter columns (impressions, clicks,
conversions, spend, revenue) stored as `0` — `calculateMetrics` returns only
the six derived KPIs, so `saveMetrics` coerces the absent counter properties
to `0` regardless of what the platform reported. -/
theorem monitorAll_rows_have_zero_counters (env : MonitorEnv) (st : DBState)
    (r : MetricsRow) (hr : r ∈ (CampaignMonitor.monitorAll env st).metricsRows) :
    r ∈ st.metricsRows ∨ zeroCounters r := by
  unfold CampaignMonitor.monitorAll at hr
  have key : ∀ (cs : List Campaign) (st0 : DBState),
      r ∈ (cs.foldl (CampaignMonitor.monitorCampaign env) st0).metricsRows →
      r ∈ st0.metricsRows ∨ zeroCounters r := by
    intro cs
    induction cs with
    | nil => exact fun st0 h => Or.inl h
    | cons c cs ih =>
      intro st0 h
      rcases ih (CampaignMonitor.monitorCampaign env st0 c) h with h1 | h1
      · exact mem_monitorCampaign env st0 c r h1
      · exact Or.inr h1
  exact key (activeCampaigns st) st hr

/-- The metrics row the concrete pass writes for `campaignW2`: zero raw
counters, KPI columns from the derived metrics. -/
def rowW : MetricsRow :=
  mkMetricsRow "w2" "2026-10-11" (calculateMetrics (parsedCounters pmW))

/-- C10 witness: the concrete pass writes `rowW` into the store, and the
theorem applies to it — since `rowW` is not a pre-existing row, its raw
counters are all zero. -/
theorem monitorAll_rows_have_zero_counters_witness :
    rowW ∈ (CampaignMonitor.monitorAll envMonitor stMonitor).metricsRows ∧
    (rowW ∈ stMonitor.metricsRows ∨ zeroCounters rowW) :=
  ⟨by decide, monitorAll_rows_have_zero_counters envMonitor stMonitor rowW (by decide)⟩

/-- Two writes to the same `(campaign, date)` key with different metrics. -/
def savesW : List (String × String × JsMetrics) :=
  [("c1", "2026-10-11", { cpl := some 10 }), ("c1", "2026-10-11", { cpl := some 60 })]

/-- C7 witness: starting from the empty store, the two same-key writes leave
a duplicate-free store, and every key lookup returns the latest write. -/
theorem saveMetrics_upsert_latest_witness :
    (metricsKeys ({} : DBState)).Nodup ∧
    ((metricsKeys (applySaves {} savesW)).Nodup ∧
     ∀ cid date, findRow (applySaves {} savesW) cid date =
       (match savesW.reverse.find? (fun c => c.1 == cid && c.2.1 == date) with
        | some c => some (mkMetricsRow c.1 c.2.1 c.2.2)
        | none => findRow {} cid date)) :=
  ⟨by decide, saveMetrics_upsert_latest {} savesW (by decide)⟩
